import Mathlib

/-!
Shallow embedding of the resilience core of `src/api/app/resilience/`
(`circuit_breaker.py`, `retry.py`, `timeout.py`) together with the parts of
the third-party `tenacity` library that the retry module delegates to
(translated from the library's source, `tenacity/wait.py`, `tenacity/stop.py`,
`tenacity/retry.py`, `tenacity/__init__.py`).  The `pybreaker` library that
`circuit_breaker.py` wraps is not available in source form; its state machine
is modelled from the specification (each such definition is marked
`Modelled from the spec:`).

Conventions of the embedding:
* time instants and durations are rationals (`ℚ`), standing for the real
  values the Python code manipulates as floats;
* Python exception *classes* are abstracted to failure *kinds*, encoded as
  `Nat`; a tuple of exception classes used in an `isinstance` test becomes a
  decidable predicate `Nat → Bool`;
* an operation guarded by retry is a function from the (1-based) attempt
  number to the outcome of that attempt; randomness (the jitter draw) is an
  explicit parameter.
-/

namespace Resilience

/-- Failure/return outcome of one invocation of a wrapped operation:
either a normal return or an exception of a given kind. -/
inductive Outcome where
  | ok : Outcome
  | fail (kind : Nat) : Outcome
  deriving DecidableEq, Repr

/-! ## Circuit breaker (`circuit_breaker.py` wrapping `pybreaker`) -/

/-- States of `CircuitState` from `circuit_breaker.py` (the pybreaker state names
`closed` / `open` / `half-open`); `opened` stands for the Python `OPEN`. -/
inductive CircuitState where
  | closed : CircuitState
  | opened : CircuitState
  | halfOpen : CircuitState
  deriving DecidableEq, Repr

/-- State of one `CircuitBreaker` instance: the configuration passed to
`CircuitBreaker.__init__` (`name`, `fail_max`, `reset_timeout`, `exclude`)
together with the mutable pybreaker state (stored state, failure counter,
time the breaker opened).  `exclude` is the decidable kind-membership
predicate standing for `isinstance(exc, tuple(self._breaker.exclude))`. -/
structure BreakerState where
  name : String
  fail_max : Nat
  reset_timeout : ℚ
  exclude : Nat → Bool
  stored : CircuitState
  failCount : Nat
  openedAt : ℚ

/-- Modelled from the spec: the state pybreaker reports for a call arriving
at time `now`.  Missing source: pybreaker's `CircuitBreaker.current_state` /
`CircuitOpenState`.  Spec §4.1: while `OPEN`, once
`now - openedAt ≥ resetTimeout` "the next call is admitted as a trial and the
breaker is treated as `HALF_OPEN` for that call"; before that it is `OPEN`;
`CLOSED` is unaffected by time. -/
def effectiveState (b : BreakerState) (now : ℚ) : CircuitState :=
  match b.stored with
  | .opened => if b.reset_timeout ≤ now - b.openedAt then .halfOpen else .opened
  | s => s

/-- Model of `CircuitBreaker._get_remaining_timeout`: remaining cool-down,
`max(0, self._breaker.reset_timeout - (time.time() - self._breaker._state_opened_at))`
(the attribute holding the opening time is modelled by the `openedAt` field). -/
def remainingTimeout (b : BreakerState) (now : ℚ) : ℚ :=
  max 0 (b.reset_timeout - (now - b.openedAt))

/-- Modelled from the spec: pybreaker's recording of a success
(`self._breaker.success()` in `call_async`).  Missing source: pybreaker's
success handling.  Spec §4.1: on success while `CLOSED` the failure count
resets to 0; a successful trial closes the breaker with failure count 0. -/
def recordSuccess (b : BreakerState) : BreakerState :=
  { b with stored := .closed, failCount := 0 }

/-- Modelled from the spec: pybreaker's recording of a non-excluded failure
(`self._breaker.failure(exc)` in `call_async`), for a call whose effective
state `es` was `CLOSED` or `HALF_OPEN`.  Missing source: pybreaker's failure
handling.  Spec §4.1: while `CLOSED`, increment the failure count and open
(recording `openedAt = now`) once it reaches `failThreshold`; a failing trial
reopens with `openedAt` refreshed. -/
def recordFailure (b : BreakerState) (es : CircuitState) (now : ℚ) : BreakerState :=
  match es with
  | .halfOpen => { b with stored := .opened, openedAt := now, failCount := b.failCount + 1 }
  | _ =>
      if b.fail_max ≤ b.failCount + 1 then
        { b with stored := .opened, openedAt := now, failCount := b.failCount + 1 }
      else
        { b with failCount := b.failCount + 1 }

/-- Result of a guarded call: a success, a rejection with
`CircuitBreakerOpenError(breaker_name, remaining_timeout)`, or the
operation's own exception propagating. -/
inductive CallOutcome where
  | success : CallOutcome
  | rejected (breakerName : String) (remaining : ℚ) : CallOutcome
  | raised (kind : Nat) : CallOutcome
  deriving DecidableEq, Repr

/-- Model of `CircuitBreaker.call_async` at time `now` on an operation whose outcome
would be `out`: if the breaker is (effectively) open, raise
`CircuitBreakerOpenError` without invoking the operation; otherwise invoke
it, record success, or — unless the exception kind is excluded
(`_is_excluded`) — record the failure, and re-raise.  The returned triple is
(new breaker state, call outcome, whether the operation was invoked). -/
def callAsync (b : BreakerState) (now : ℚ) (out : Outcome) :
    BreakerState × CallOutcome × Bool :=
  if effectiveState b now = .opened then
    (b, .rejected b.name (remainingTimeout b now), false)
  else
    match out with
    | .ok => (recordSuccess b, .success, true)
    | .fail k =>
        if b.exclude k then (b, .raised k, true)
        else (recordFailure b (effectiveState b now) now, .raised k, true)

/-- Folding a sequence of calls whose operations all fail, given as
(time, failure kind) pairs, through `callAsync`. -/
def runFailCalls (b : BreakerState) (calls : List (ℚ × Nat)) : BreakerState :=
  calls.foldl (fun s c => (callAsync s c.1 (.fail c.2)).1) b

end Resilience

namespace Resilience

/-! ## Retry (`retry.py` delegating to `tenacity`) -/

/-- Model of `RetryConfig` from `retry.py`: maximum attempts, delay bounds, backoff
base, jitter switch, and the retryable / excluded exception-kind sets
(`retry_exceptions` defaults to `(Exception,)`, i.e. every kind). -/
structure RetryConfig where
  max_attempts : Nat
  max_delay_seconds : ℚ
  initial_delay_seconds : ℚ
  exponential_base : ℚ
  jitter : Bool
  retry_exceptions : Nat → Bool
  exclude_exceptions : Nat → Bool

/-- Model of `tenacity.wait_exponential.__call__` (tenacity `wait.py`):
`max(max(0, min), min(multiplier * exp_base**(attempt_number - 1), max))`.
(The float `OverflowError` branch has no rational counterpart.) -/
def wait_exponential (multiplier minv maxv exp_base : ℚ) (attemptNumber : Nat) : ℚ :=
  max (max 0 minv) (min (multiplier * exp_base ^ (attemptNumber - 1)) maxv)

/-- Model of `tenacity.wait_exponential_jitter.__call__` (tenacity `wait.py`):
`max(0, min(initial * exp_base**(attempt_number - 1) + jitter, max))`, where
`jitter = random.uniform(0, self.jitter)` is passed in explicitly as `j`
(the repository leaves the jitter bound at its default 1). -/
def wait_exponential_jitter (initial maxv exp_base : ℚ) (attemptNumber : Nat) (j : ℚ) : ℚ :=
  max 0 (min (initial * exp_base ^ (attemptNumber - 1) + j) maxv)

/-- The wait strategy built by `create_retry_decorator` (retry.py lines
110-123): `wait_exponential_jitter(initial=.., max=.., exp_base=..)` when
`config.jitter`, otherwise `wait_exponential(multiplier=initial, min=initial,
max=.., exp_base=..)`.  `j` is the uniform draw from `[0, 1]` consumed by the
jitter strategy (ignored by the other). -/
def retryWait (cfg : RetryConfig) (attemptNumber : Nat) (j : ℚ) : ℚ :=
  if cfg.jitter then
    wait_exponential_jitter cfg.initial_delay_seconds cfg.max_delay_seconds
      cfg.exponential_base attemptNumber j
  else
    wait_exponential cfg.initial_delay_seconds cfg.initial_delay_seconds
      cfg.max_delay_seconds cfg.exponential_base attemptNumber

/-- One observable action of a call decorated by `create_retry_decorator`:
an invocation of the wrapped operation (tenacity's `DoAttempt`), a sleep
before the next attempt (tenacity's `DoSleep`), or one of the three
`RetryBudget` API calls (`record_request` / `record_retry` / `can_retry`) the
specification describes.  `create_retry_decorator` passes no budget to
`tenacity.retry`, so no execution path of the decorator emits the budget
actions; they are listed so their absence is expressible. -/
inductive RetryAction where
  | invoke (attemptNumber : Nat) : RetryAction
  | sleepFor (delay : ℚ) : RetryAction
  | budgetRecordRequest : RetryAction
  | budgetRecordRetry : RetryAction
  | budgetCanRetry : RetryAction
  deriving DecidableEq, Repr

/-- Final outcome of a retry-decorated call. -/
inductive RetryResult where
  | ok : RetryResult
  | failed (kind : Nat) : RetryResult
  deriving DecidableEq, Repr

/-- The retry loop of `tenacity.Retrying.__call__` / `BaseRetrying.iter`
as configured by `create_retry_decorator` (`stop_after_attempt(max_attempts)`,
`retry_if_exception_type(retry_exceptions)`, `reraise=True`), started at
attempt number `attempt` with `remaining` further attempts allowed
(`remaining = max_attempts - attempt`, so `stop` holds exactly when
`remaining = 0`):
* a successful attempt returns its result;
* a failure whose kind is not retryable is re-raised at once
  (`iter` returns `fut.result()`, which raises the stored exception);
* a retryable failure with `stop` satisfied re-raises the last exception
  (`reraise=True`, `RetryError.reraise`);
* otherwise the loop sleeps for the computed wait and tries again.
Returns the action trace and the final result. -/
def runRetryFrom (cfg : RetryConfig) (op : Nat → Outcome) (js : Nat → ℚ) :
    Nat → Nat → List RetryAction × RetryResult
  | attempt, 0 =>
      match op attempt with
      | .ok => ([.invoke attempt], .ok)
      | .fail k => ([.invoke attempt], .failed k)
  | attempt, remaining + 1 =>
      match op attempt with
      | .ok => ([.invoke attempt], .ok)
      | .fail k =>
          if cfg.retry_exceptions k then
            let rest := runRetryFrom cfg op js (attempt + 1) remaining
            (.invoke attempt :: .sleepFor (retryWait cfg attempt (js attempt)) :: rest.1,
             rest.2)
          else ([.invoke attempt], .failed k)

/-- A full call of a function decorated by `create_retry_decorator`:
attempts start at 1 and `stop_after_attempt(cfg.max_attempts)` allows
`cfg.max_attempts - 1` further attempts after the first.  `op` gives each
attempt's outcome, `js` each attempt's jitter draw. -/
def executeWithRetry (cfg : RetryConfig) (op : Nat → Outcome) (js : Nat → ℚ) :
    List RetryAction × RetryResult :=
  runRetryFrom cfg op js 1 (cfg.max_attempts - 1)

/-- Number of operation invocations recorded in a trace. -/
def countInvocations (tr : List RetryAction) : Nat :=
  (tr.filter fun a => match a with | .invoke _ => true | _ => false).length

/-! ## RetryBudget (`retry.py`) -/

/-- Model of `RetryBudget` from `retry.py`: configuration plus the two time-stamped
event logs (`self._requests`, `self._retries`). -/
structure RetryBudget where
  budget_percent : ℚ
  window_seconds : ℚ
  min_retries_per_second : ℚ
  requests : List ℚ
  retries : List ℚ

/-- Model of `RetryBudget._cleanup`: drop entries at or before `now - window_seconds`
(the Python filter keeps `t > cutoff`). -/
def budgetCleanup (b : RetryBudget) (now : ℚ) : RetryBudget :=
  { b with
    requests := b.requests.filter fun t => decide (now - b.window_seconds < t)
    retries := b.retries.filter fun t => decide (now - b.window_seconds < t) }

/-- Model of `RetryBudget.record_request` at time `now`: append the timestamp, then
clean up. -/
def recordRequest (b : RetryBudget) (now : ℚ) : RetryBudget :=
  budgetCleanup { b with requests := b.requests ++ [now] } now

/-- Model of `RetryBudget.record_retry` at time `now`: append the timestamp, then
clean up. -/
def recordRetry (b : RetryBudget) (now : ℚ) : RetryBudget :=
  budgetCleanup { b with retries := b.retries ++ [now] } now

/-- Model of `RetryBudget.can_retry` at time `now`: after cleanup, allow when the
retry rate (`len(self._retries) / self.window_seconds`) is below the floor;
then allow when the request log is empty; otherwise allow iff the retry
percentage (`len(self._retries) / len(self._requests) * 100`) is strictly
below `budget_percent`. -/
def canRetry (b : RetryBudget) (now : ℚ) : Bool :=
  let b' := budgetCleanup b now
  if (b'.retries.length : ℚ) / b.window_seconds < b.min_retries_per_second then true
  else if b'.requests.isEmpty then true
  else decide ((b'.retries.length : ℚ) / (b'.requests.length : ℚ) * 100 < b.budget_percent)

/-! ## AdaptiveTimeout (`timeout.py`) -/

/-- Model of `AdaptiveTimeout` from `timeout.py`: the configuration stored by
`__init__` plus the mutable sample window (`self._latencies`) and the active
timeout (`self._current_timeout`). -/
structure AdaptiveTimeout where
  min_timeout : ℚ
  max_timeout : ℚ
  percentile : ℚ
  buffer_multiplier : ℚ
  window_size : Nat
  latencies : List ℚ
  currentTimeout : ℚ

/-- Model of `AdaptiveTimeout.__init__(initial_timeout, min_timeout, max_timeout,
percentile, buffer_multiplier, window_size)`: empty sample window, current
timeout set to `initial_timeout` (no clamping is performed). -/
def initAdaptive (initial_timeout min_timeout max_timeout percentile
    buffer_multiplier : ℚ) (window_size : Nat) : AdaptiveTimeout :=
  { min_timeout := min_timeout, max_timeout := max_timeout,
    percentile := percentile, buffer_multiplier := buffer_multiplier,
    window_size := window_size, latencies := [], currentTimeout := initial_timeout }

/-- Model of `AdaptiveTimeout.record_timeout`: widen the current timeout by 10%,
capped at `max_timeout`. -/
def recordTimeout (a : AdaptiveTimeout) : AdaptiveTimeout :=
  { a with currentTimeout := min a.max_timeout (a.currentTimeout * (11 / 10)) }

/-- Python `int(x)` on a rational: truncation toward zero. -/
def pyInt (x : ℚ) : ℤ :=
  if 0 ≤ x then ⌊x⌋ else -⌊-x⌋

/-- Insert a rational into an ascending-sorted list, keeping it sorted. -/
def insertSorted (x : ℚ) : List ℚ → List ℚ
  | [] => [x]
  | y :: ys => if x ≤ y then x :: y :: ys else y :: insertSorted x ys

/-- Python `sorted()` on a list of rationals (ascending).  On values of a
linear order every comparison sort returns the same list, so insertion sort
is an exact model. -/
def sortLats : List ℚ → List ℚ
  | [] => []
  | x :: xs => insertSorted x (sortLats xs)

/-- Model of `AdaptiveTimeout._update_timeout`: do nothing with fewer than 10 samples;
otherwise sort the window, read the percentile sample at
`min(int(len * percentile / 100), len - 1)`, multiply by the buffer, and set
the current timeout to `max(min_timeout, min(max_timeout, new_timeout))`. -/
def updateTimeout (a : AdaptiveTimeout) : AdaptiveTimeout :=
  if a.latencies.length < 10 then a
  else
    let sorted := sortLats a.latencies
    let index := pyInt ((a.latencies.length : ℚ) * a.percentile / 100)
    let percentile_value := sorted.getD (min index ((sorted.length : ℤ) - 1)).toNat 0
    let new_timeout := percentile_value * a.buffer_multiplier
    { a with currentTimeout := max a.min_timeout (min a.max_timeout new_timeout) }

/-- Model of `AdaptiveTimeout.record_latency`: append the sample; if the window
overflowed, keep `self._latencies[-window_size:]` (for a positive
`window_size` that is the last `window_size` entries; Python's `[-0:]` slice
keeps the whole list); then recalculate the timeout. -/
def recordLatency (a : AdaptiveTimeout) (latency : ℚ) : AdaptiveTimeout :=
  let lat := a.latencies ++ [latency]
  let kept :=
    if a.window_size < lat.length then
      if a.window_size = 0 then lat else lat.drop (lat.length - a.window_size)
    else lat
  updateTimeout { a with latencies := kept }

/-! ## Named presets and their lookup (`retry.py`, `timeout.py`) -/

/-- Kind code standing for Python's `ConnectionError` class. -/
def connectionErrorKind : Nat := 1

/-- Kind code standing for Python's builtin `TimeoutError` class. -/
def timeoutErrorKind : Nat := 2

/-- Value of `RetryConfig()` with all defaults (`RETRY_CONFIGS["default"]`):
3 attempts, delays 1..60, base 2, jitter on, retry on every kind. -/
def retryConfigDefault : RetryConfig :=
  { max_attempts := 3, max_delay_seconds := 60, initial_delay_seconds := 1,
    exponential_base := 2, jitter := true,
    retry_exceptions := fun _ => true, exclude_exceptions := fun _ => false }

/-- Preset `RETRY_CONFIGS["aggressive"]`. -/
def retryConfigAggressive : RetryConfig :=
  { retryConfigDefault with
    max_attempts := 5
    max_delay_seconds := 120
    initial_delay_seconds := 1 / 2 }

/-- Preset `RETRY_CONFIGS["conservative"]`. -/
def retryConfigConservative : RetryConfig :=
  { retryConfigDefault with
    max_attempts := 2
    max_delay_seconds := 30
    initial_delay_seconds := 2 }

/-- Preset `RETRY_CONFIGS["database"]`: retries only `ConnectionError` and
`TimeoutError`. -/
def retryConfigDatabase : RetryConfig :=
  { retryConfigDefault with
    max_attempts := 3
    initial_delay_seconds := 1 / 10
    max_delay_seconds := 5
    retry_exceptions := fun k => k == connectionErrorKind || k == timeoutErrorKind }

/-- Preset `RETRY_CONFIGS["http"]`. -/
def retryConfigHttp : RetryConfig :=
  { retryConfigDefault with
    max_attempts := 3
    initial_delay_seconds := 1
    max_delay_seconds := 10
    jitter := true }

/-- Preset `RETRY_CONFIGS["idempotent"]`. -/
def retryConfigIdempotent : RetryConfig :=
  { retryConfigDefault with
    max_attempts := 5
    initial_delay_seconds := 1 / 2
    max_delay_seconds := 30 }

/-- Model of `RETRY_CONFIGS.get(name)`: the dictionary of named retry presets. -/
def RETRY_CONFIGS_get (name : String) : Option RetryConfig :=
  if name = ("default") then some retryConfigDefault
  else if name = ("aggressive") then some retryConfigAggressive
  else if name = ("conservative") then some retryConfigConservative
  else if name = ("database") then some retryConfigDatabase
  else if name = ("http") then some retryConfigHttp
  else if name = ("idempotent") then some retryConfigIdempotent
  else none

/-- Python's `config_name or "default"`: `None` and the empty string are
falsy and give `"default"`. -/
def orDefaultName (config_name : Option String) : String :=
  match config_name with
  | none => ("default")
  | some n => if n = ("") then ("default") else n

/-- The configuration-resolution step of `create_retry_decorator`
(retry.py lines 107-108): an explicit `config` wins; otherwise
`RETRY_CONFIGS.get(config_name or "default", RETRY_CONFIGS["default"])`. -/
def resolveRetryConfig (config : Option RetryConfig) (config_name : Option String) :
    RetryConfig :=
  match config with
  | some c => c
  | none => (RETRY_CONFIGS_get (orDefaultName config_name)).getD retryConfigDefault

/-- Model of `TimeoutConfig` from `timeout.py`. -/
structure TimeoutConfig where
  default_timeout : ℚ
  connect_timeout : ℚ
  read_timeout : ℚ
  write_timeout : ℚ

/-- Value of `TimeoutConfig()` with all defaults (`TIMEOUT_CONFIGS["default"]`). -/
def timeoutConfigDefault : TimeoutConfig :=
  { default_timeout := 30, connect_timeout := 5, read_timeout := 30,
    write_timeout := 30 }

/-- Preset `TIMEOUT_CONFIGS["fast"]`. -/
def timeoutConfigFast : TimeoutConfig :=
  { default_timeout := 5, connect_timeout := 2, read_timeout := 5,
    write_timeout := 5 }

/-- Preset `TIMEOUT_CONFIGS["slow"]`. -/
def timeoutConfigSlow : TimeoutConfig :=
  { default_timeout := 120, connect_timeout := 10, read_timeout := 120,
    write_timeout := 60 }

/-- Preset `TIMEOUT_CONFIGS["database"]`. -/
def timeoutConfigDatabase : TimeoutConfig :=
  { default_timeout := 10, connect_timeout := 5, read_timeout := 10,
    write_timeout := 10 }

/-- Preset `TIMEOUT_CONFIGS["external_api"]`. -/
def timeoutConfigExternalApi : TimeoutConfig :=
  { default_timeout := 30, connect_timeout := 5, read_timeout := 30,
    write_timeout := 10 }

/-- Model of `TIMEOUT_CONFIGS.get(name)`: the dictionary of named timeout presets. -/
def TIMEOUT_CONFIGS_get (name : String) : Option TimeoutConfig :=
  if name = ("default") then some timeoutConfigDefault
  else if name = ("fast") then some timeoutConfigFast
  else if name = ("slow") then some timeoutConfigSlow
  else if name = ("database") then some timeoutConfigDatabase
  else if name = ("external_api") then some timeoutConfigExternalApi
  else none

/-- The timeout-resolution step of `with_timeout` (timeout.py lines 94-101):
an explicit `seconds` wins; a truthy `config_name` selects
`TIMEOUT_CONFIGS.get(config_name, TIMEOUT_CONFIGS["default"]).default_timeout`;
otherwise the default preset's `default_timeout` is used. -/
def withTimeoutSeconds (seconds : Option ℚ) (config_name : Option String) : ℚ :=
  match seconds with
  | some s => s
  | none =>
      match config_name with
      | some n =>
          if n = ("") then timeoutConfigDefault.default_timeout
          else ((TIMEOUT_CONFIGS_get n).getD timeoutConfigDefault).default_timeout
      | none => timeoutConfigDefault.default_timeout

/-- One mutating call on an `AdaptiveTimeout`. -/
inductive ATOp where
  | lat (latency : ℚ) : ATOp
  | timeout : ATOp

/-- Apply a sequence of `record_latency` / `record_timeout` calls. -/
def runOps (a : AdaptiveTimeout) (ops : List ATOp) : AdaptiveTimeout :=
  ops.foldl (fun s o => match o with
    | .lat l => recordLatency s l
    | .timeout => recordTimeout s) a

/-- Apply a sequence of `record_latency` calls. -/
def runLats (a : AdaptiveTimeout) (ls : List ℚ) : AdaptiveTimeout :=
  ls.foldl recordLatency a

end Resilience

namespace Resilience

/-! ## Circuit breaker lemmas -/

lemma callAsync_of_effOpen (b : BreakerState) (now : ℚ) (out : Outcome)
    (h : effectiveState b now = .opened) :
    callAsync b now out = (b, .rejected b.name (remainingTimeout b now), false) := by
  simp [callAsync, h]

lemma callAsync_preserves_config (b : BreakerState) (now : ℚ) (out : Outcome) :
    (callAsync b now out).1.exclude = b.exclude ∧
    (callAsync b now out).1.fail_max = b.fail_max := by
  unfold callAsync recordSuccess recordFailure
  by_cases h : effectiveState b now = .opened
  · simp [h]
  · cases out with
    | ok => simp [h]
    | fail k =>
        by_cases hex : b.exclude k
        · simp [h, hex]
        · cases hes : effectiveState b now
          all_goals simp [h, hes, hex]
          all_goals (split <;> simp)

lemma stored_open_after_fail (b : BreakerState) (now : ℚ) (k : Nat)
    (h : b.stored = .opened) :
    ((callAsync b now (.fail k)).1).stored = .opened := by
  unfold callAsync
  by_cases hop : effectiveState b now = .opened
  · simp [hop, h]
  · have hes : effectiveState b now = .halfOpen := by
      unfold effectiveState at hop ⊢
      rw [h] at hop ⊢
      by_cases hc : b.reset_timeout ≤ now - b.openedAt <;> simp [hc] at hop ⊢
    by_cases hex : b.exclude k
    · simp [hop, hex, h]
    · simp [hop, hex, hes, recordFailure]

lemma stored_open_runFailCalls (calls : List (ℚ × Nat)) (b : BreakerState)
    (h : b.stored = .opened) :
    (runFailCalls b calls).stored = .opened := by
  induction calls generalizing b with
  | nil => exact h
  | cons c rest ih =>
      exact ih _ (stored_open_after_fail b c.1 c.2 h)

lemma step_closed_fail (b : BreakerState) (now : ℚ) (k : Nat)
    (hc : b.stored = .closed) (hex : b.exclude k = false) :
    ((callAsync b now (.fail k)).1.stored = .closed ∧
      (callAsync b now (.fail k)).1.failCount = b.failCount + 1 ∧
      b.failCount + 1 < b.fail_max) ∨
    (callAsync b now (.fail k)).1.stored = .opened := by
  have hes : effectiveState b now = .closed := by
    unfold effectiveState; rw [hc]
  by_cases hmax : b.fail_max ≤ b.failCount + 1
  · right; simp [callAsync, hes, hex, recordFailure, hmax]
  · left
    constructor
    · simp [callAsync, hes, hex, recordFailure, hmax, hc]
    · constructor
      · simp [callAsync, hes, hex, recordFailure, hmax]
      · omega

lemma runFailCalls_cons (b : BreakerState) (c : ℚ × Nat) (rest : List (ℚ × Nat)) :
    runFailCalls b (c :: rest) = runFailCalls (callAsync b c.1 (.fail c.2)).1 rest := rfl

lemma runFailCalls_opens (calls : List (ℚ × Nat)) (b : BreakerState)
    (hexcl : ∀ c ∈ calls, b.exclude c.2 = false)
    (hst : b.stored = .opened ∨
      (b.stored = .closed ∧ b.fail_max ≤ b.failCount + calls.length ∧
        1 ≤ calls.length)) :
    (runFailCalls b calls).stored = .opened := by
  induction calls generalizing b with
  | nil =>
      rcases hst with h | ⟨_, _, h1⟩
      · exact h
      · simp at h1
  | cons c rest ih =>
      rw [runFailCalls_cons]
      rcases hst with hopen | ⟨hc, hcount, _⟩
      · exact stored_open_runFailCalls _ _ (stored_open_after_fail b c.1 c.2 hopen)
      · have hpres := callAsync_preserves_config b c.1 (.fail c.2)
        have hexcl' : ∀ d ∈ rest, (callAsync b c.1 (.fail c.2)).1.exclude d.2 = false := by
          intro d hd
          rw [hpres.1]
          exact hexcl d (List.mem_cons_of_mem _ hd)
        rcases step_closed_fail b c.1 c.2 hc (hexcl c (List.mem_cons_self c rest)) with
          ⟨hst', hcnt', hlt'⟩ | hop'
        · refine ih _ hexcl' (Or.inr ⟨hst', ?_, ?_⟩)
          · rw [hpres.2, hcnt']
            simp only [List.length_cons] at hcount
            omega
          · simp only [List.length_cons] at hcount
            omega
        · exact stored_open_runFailCalls _ _ hop'

/-- C1: a `CLOSED` breaker hit by `fail_max` consecutive failures whose kinds
are all outside `exclude` ends `OPEN`, and every subsequent call made while
the breaker is (effectively) `OPEN` returns `CircuitBreakerOpenError`
without invoking the wrapped operation and without changing the breaker. -/
theorem closed_breaker_opens_after_fail_max_failures
    (b : BreakerState) (calls : List (ℚ × Nat))
    (hclosed : b.stored = .closed)
    (hlen : calls.length = b.fail_max)
    (hpos : 1 ≤ b.fail_max)
    (hexcl : ∀ c ∈ calls, b.exclude c.2 = false) :
    (runFailCalls b calls).stored = .opened ∧
    ∀ (now : ℚ) (out : Outcome),
      effectiveState (runFailCalls b calls) now = .opened →
      callAsync (runFailCalls b calls) now out
        = (runFailCalls b calls,
           .rejected (runFailCalls b calls).name
             (remainingTimeout (runFailCalls b calls) now),
           false) := by
  constructor
  · exact runFailCalls_opens calls b hexcl (Or.inr ⟨hclosed, by omega, by omega⟩)
  · intro now out h
    exact callAsync_of_effOpen _ now out h

/-- Concrete breaker used as a witness input: `fail_max = 2`,
`reset_timeout = 30`, nothing excluded, freshly closed. -/
def breakerEx : BreakerState :=
  { name := ("cb"), fail_max := 2, reset_timeout := 30, exclude := fun _ => false,
    stored := .closed, failCount := 0, openedAt := 0 }

/-- Two non-excluded failures at times 0 and 1. -/
def callsEx : List (ℚ × Nat) := [(0, 1), (1, 1)]

/-- Witness for C1 at `breakerEx` / `callsEx`: the breaker ends `OPEN` and a
call at time 2 is rejected without invoking the operation. -/
theorem closed_breaker_opens_after_fail_max_failures_witness :
    (runFailCalls breakerEx callsEx).stored = .opened ∧
    (callAsync (runFailCalls breakerEx callsEx) 2 .ok).2.2 = false := by
  have s1 : callAsync breakerEx 0 (.fail 1)
      = ({ breakerEx with failCount := 1 }, .raised 1, true) := by
    norm_num [callAsync, effectiveState, breakerEx, recordFailure]
    all_goals decide
  have s2 : callAsync { breakerEx with failCount := 1 } 1 (.fail 1)
      = ({ breakerEx with stored := .opened, failCount := 2, openedAt := 1 },
         .raised 1, true) := by
    norm_num [callAsync, effectiveState, breakerEx, recordFailure]
    all_goals decide
  have hrun : runFailCalls breakerEx callsEx
      = { breakerEx with stored := .opened, failCount := 2, openedAt := 1 } := by
    show (callAsync (callAsync breakerEx 0 (.fail 1)).1 1 (.fail 1)).1 = _
    rw [s1, s2]
  have heff : effectiveState (runFailCalls breakerEx callsEx) 2 = .opened := by
    rw [hrun]
    norm_num [effectiveState, breakerEx]
  have h := closed_breaker_opens_after_fail_max_failures breakerEx callsEx rfl
    (by decide) (by decide) (by decide)
  refine ⟨h.1, ?_⟩
  rw [h.2 2 .ok heff]

end Resilience

namespace Resilience

/-- C2: for a breaker whose stored state is `OPEN`, a call before
`reset_timeout` has elapsed raises `CircuitBreakerOpenError` carrying
`max(0, reset_timeout - (now - openedAt))`, which is strictly positive, and
does not invoke the operation; a call at or after `reset_timeout` has
elapsed dispatches the operation (as the trial) instead of rejecting it. -/
theorem open_breaker_rejects_then_admits_trial
    (b : BreakerState) (now : ℚ) (out : Outcome)
    (hopen : b.stored = .opened) :
    (now - b.openedAt < b.reset_timeout →
      callAsync b now out
        = (b, .rejected b.name (max 0 (b.reset_timeout - (now - b.openedAt))), false) ∧
      0 < remainingTimeout b now) ∧
    (b.reset_timeout ≤ now - b.openedAt →
      (callAsync b now out).2.2 = true) := by
  constructor
  · intro hlt
    have heff : effectiveState b now = .opened := by
      unfold effectiveState
      rw [hopen]
      simp [not_le.2 hlt]
    refine ⟨callAsync_of_effOpen b now out heff, ?_⟩
    unfold remainingTimeout
    have : 0 < b.reset_timeout - (now - b.openedAt) := by linarith
    exact lt_max_of_lt_right this
  · intro hge
    have heff : effectiveState b now = .halfOpen := by
      unfold effectiveState
      rw [hopen]
      simp [hge]
    have hne : ¬ effectiveState b now = .opened := by rw [heff]; decide
    cases out with
    | ok => simp [callAsync, hne]
    | fail k =>
        by_cases hex : b.exclude k <;> simp [callAsync, hne, hex]

/-- Concrete open breaker used as a witness input: opened at time 0 with
`reset_timeout = 30`. -/
def openBreakerEx : BreakerState :=
  { name := ("cb"), fail_max := 5, reset_timeout := 30, exclude := fun _ => false,
    stored := .opened, failCount := 5, openedAt := 0 }

/-- Witness for C2 at `openBreakerEx`: at time 10 the call is rejected with
20 seconds of cool-down left and the operation is not invoked; at time 40
the operation is dispatched. -/
theorem open_breaker_rejects_then_admits_trial_witness :
    (callAsync openBreakerEx 10 .ok
        = (openBreakerEx, .rejected ("cb") 20, false) ∧
      0 < remainingTimeout openBreakerEx 10) ∧
    (callAsync openBreakerEx 40 .ok).2.2 = true := by
  have h1 := (open_breaker_rejects_then_admits_trial openBreakerEx 10 .ok rfl).1
    (by norm_num [openBreakerEx])
  have h2 := (open_breaker_rejects_then_admits_trial openBreakerEx 40 .ok rfl).2
    (by norm_num [openBreakerEx])
  refine ⟨⟨?_, h1.2⟩, h2⟩
  rw [h1.1]
  norm_num [openBreakerEx]

/-- C6: a failure whose kind is excluded propagates to the caller
(`raised k`, operation invoked) while the breaker state is unchanged —
provided the call was admitted at all (the breaker was not effectively
`OPEN`, in which case the operation would not run). -/
theorem excluded_failure_leaves_breaker_unchanged
    (b : BreakerState) (now : ℚ) (k : Nat)
    (hex : b.exclude k = true)
    (hnotopen : effectiveState b now ≠ .opened) :
    callAsync b now (.fail k) = (b, .raised k, true) := by
  simp [callAsync, hnotopen, hex]

/-- Concrete closed breaker with kind 9 excluded, used as a witness input. -/
def closedBreakerEx : BreakerState :=
  { name := ("cb"), fail_max := 5, reset_timeout := 30, exclude := fun kk => kk == 9,
    stored := .closed, failCount := 3, openedAt := 0 }

/-- Witness for C6 at `closedBreakerEx`: an excluded failure of kind 9 at
time 5 propagates and leaves the breaker exactly as it was. -/
theorem excluded_failure_leaves_breaker_unchanged_witness :
    callAsync closedBreakerEx 5 (.fail 9) = (closedBreakerEx, .raised 9, true) :=
  excluded_failure_leaves_breaker_unchanged closedBreakerEx 5 9 (by decide) (by decide)

end Resilience

namespace Resilience

/-! ## Retry lemmas -/

lemma countInvocations_cons_invoke (a : Nat) (tr : List RetryAction) :
    countInvocations (.invoke a :: tr) = countInvocations tr + 1 := by
  simp [countInvocations, List.filter]

lemma countInvocations_cons_sleep (d : ℚ) (tr : List RetryAction) :
    countInvocations (.sleepFor d :: tr) = countInvocations tr := by
  simp [countInvocations, List.filter]

lemma runRetryFrom_all_fail (cfg : RetryConfig) (op : Nat → Outcome) (js : Nat → ℚ)
    (f : Nat → Nat)
    (hfail : ∀ k, op k = .fail (f k))
    (hretry : ∀ k, cfg.retry_exceptions (f k) = true) :
    ∀ (remaining attempt : Nat),
      (runRetryFrom cfg op js attempt remaining).2 = .failed (f (attempt + remaining)) ∧
      countInvocations (runRetryFrom cfg op js attempt remaining).1 = remaining + 1 := by
  intro remaining
  induction remaining with
  | zero =>
      intro attempt
      simp [runRetryFrom, hfail attempt, countInvocations, List.filter]
  | succ r ih =>
      intro attempt
      have h := ih (attempt + 1)
      constructor
      · simp only [runRetryFrom, hfail attempt, hretry attempt, if_true]
        have e : attempt + 1 + r = attempt + (r + 1) := by omega
        rw [h.1, e]
      · simp only [runRetryFrom, hfail attempt, hretry attempt, if_true]
        rw [countInvocations_cons_invoke, countInvocations_cons_sleep, h.2]

/-- C3: a retry-decorated call on an operation that fails on every attempt
with a retryable kind invokes the operation exactly `max_attempts` times and
then propagates the failure raised by the final attempt unchanged. -/
theorem retry_all_failures_invokes_exactly_max_attempts
    (cfg : RetryConfig) (op : Nat → Outcome) (js : Nat → ℚ) (f : Nat → Nat)
    (hfail : ∀ k, op k = .fail (f k))
    (hretry : ∀ k, cfg.retry_exceptions (f k) = true)
    (hmax : 1 ≤ cfg.max_attempts) :
    (executeWithRetry cfg op js).2 = .failed (f cfg.max_attempts) ∧
    countInvocations (executeWithRetry cfg op js).1 = cfg.max_attempts := by
  unfold executeWithRetry
  have h := runRetryFrom_all_fail cfg op js f hfail hretry (cfg.max_attempts - 1) 1
  have e : 1 + (cfg.max_attempts - 1) = cfg.max_attempts := by omega
  constructor
  · rw [h.1, e]
  · rw [h.2]
    omega

/-- Witness for C3: the default config (3 attempts) on an operation that
always raises kind 5 invokes it 3 times and fails with kind 5. -/
theorem retry_all_failures_invokes_exactly_max_attempts_witness :
    (executeWithRetry retryConfigDefault (fun _ => .fail 5) (fun _ => 0)).2
      = .failed 5 ∧
    countInvocations
      (executeWithRetry retryConfigDefault (fun _ => .fail 5) (fun _ => 0)).1 = 3 :=
  retry_all_failures_invokes_exactly_max_attempts retryConfigDefault
    (fun _ => .fail 5) (fun _ => 0) (fun _ => 5)
    (fun _ => rfl) (fun _ => rfl) (by decide)

/-- Counterexample to C4 as stated: for the `http` preset (jitter on,
`initialDelay = 1`, `backoffBase = 2`, `maxDelay = 10`), at attempt `k = 1`
with an admissible jitter draw `3/4 ∈ [0, 1]`, the slept delay is `7/4`,
which is **not** in `[0, min(maxDelay, initialDelay * backoffBase^(k-1))]`
`= [0, 1]`: the code adds uniform jitter from `[0, 1]` on top of the
exponential term instead of drawing the whole delay from
`[0, computedDelay]`. -/
theorem retry_wait_jitter_counterexample :
    retryConfigHttp.jitter = true ∧
    (0 ≤ (3 / 4 : ℚ) ∧ (3 / 4 : ℚ) ≤ 1) ∧
    retryWait retryConfigHttp 1 (3 / 4) = 7 / 4 ∧
    ¬ (retryWait retryConfigHttp 1 (3 / 4)
        ≤ min retryConfigHttp.max_delay_seconds
            (retryConfigHttp.initial_delay_seconds *
              retryConfigHttp.exponential_base ^ (1 - 1))) := by
  norm_num [retryConfigHttp, retryConfigDefault, retryWait, wait_exponential_jitter]

/-- C4 (amended): without jitter the delay before the next attempt after
attempt `k` is `max(initialDelay, min(maxDelay, initialDelay * base^(k-1)))`
(tenacity's `wait_exponential` clamps from below by `min=initialDelay`, not
by 0); with jitter it is
`max(0, min(maxDelay, initialDelay * base^(k-1) + j))` where `j` is drawn
uniformly from `[0, 1]` — additive bounded jitter, not full jitter over
`[0, computedDelay]`. -/
theorem retry_wait_formula
    (cfg : RetryConfig) (k : Nat) (j : ℚ)
    (hpos : 0 ≤ cfg.initial_delay_seconds) :
    (cfg.jitter = false →
      retryWait cfg k j
        = max cfg.initial_delay_seconds
            (min (cfg.initial_delay_seconds * cfg.exponential_base ^ (k - 1))
              cfg.max_delay_seconds)) ∧
    (cfg.jitter = true →
      retryWait cfg k j
        = max 0
            (min (cfg.initial_delay_seconds * cfg.exponential_base ^ (k - 1) + j)
              cfg.max_delay_seconds)) := by
  constructor
  · intro hj
    simp [retryWait, hj, wait_exponential, max_eq_right hpos]
  · intro hj
    simp [retryWait, hj, wait_exponential_jitter]

/-- The default config with jitter disabled, used as a witness input. -/
def noJitterCfgEx : RetryConfig := { retryConfigDefault with jitter := false }

/-- Witness for C4 (amended): concrete delays — without jitter, attempt 3 of
the default parameters sleeps `min(60, 1 * 2^2) = 4`; with jitter (`http`
preset) attempt 3 with draw `1/2` sleeps `min(10, 4 + 1/2) = 9/2`. -/
theorem retry_wait_formula_witness :
    retryWait noJitterCfgEx 3 0 = 4 ∧ retryWait retryConfigHttp 3 (1 / 2) = 9 / 2 := by
  have h1 := (retry_wait_formula noJitterCfgEx 3 0
    (by norm_num [noJitterCfgEx, retryConfigDefault])).1 rfl
  have h2 := (retry_wait_formula retryConfigHttp 3 (1 / 2)
    (by norm_num [retryConfigHttp, retryConfigDefault])).2 rfl
  constructor
  · rw [h1]
    norm_num [noJitterCfgEx, retryConfigDefault]
  · rw [h2]
    norm_num [retryConfigHttp, retryConfigDefault]

/-- Counterexample to C5 as stated: in a concrete retry-decorated call
(default config, operation always failing, so the claim demands one
`record_request` per original call), the decorated call performs zero
`RetryBudget.record_request` calls — `create_retry_decorator` (retry.py
lines 136-143) passes no budget to `tenacity.retry`, and `RetryBudget` has
no callers anywhere in the repository. -/
theorem retry_budget_not_recorded_counterexample :
    ¬ (((executeWithRetry retryConfigDefault (fun _ => .fail 5) (fun _ => 0)).1.filter
        (fun a => decide (a = .budgetRecordRequest))).length = 1) := by
  decide

lemma mem_runRetryFrom_invoke_or_sleep (cfg : RetryConfig) (op : Nat → Outcome)
    (js : Nat → ℚ) :
    ∀ (remaining attempt : Nat) (a : RetryAction),
      a ∈ (runRetryFrom cfg op js attempt remaining).1 →
      (∃ k, a = .invoke k) ∨ (∃ d, a = .sleepFor d) := by
  intro remaining
  induction remaining with
  | zero =>
      intro attempt a ha
      cases hop : op attempt with
      | ok =>
          simp [runRetryFrom, hop] at ha
          exact Or.inl ⟨attempt, ha⟩
      | fail k =>
          simp [runRetryFrom, hop] at ha
          exact Or.inl ⟨attempt, ha⟩
  | succ r ih =>
      intro attempt a ha
      cases hop : op attempt with
      | ok =>
          simp [runRetryFrom, hop] at ha
          exact Or.inl ⟨attempt, ha⟩
      | fail k =>
          by_cases hr : cfg.retry_exceptions k
          · simp [runRetryFrom, hop, hr] at ha
            rcases ha with ha | ha | ha
            · exact Or.inl ⟨attempt, ha⟩
            · exact Or.inr ⟨_, ha⟩
            · exact ih (attempt + 1) a ha
          · simp [runRetryFrom, hop, hr] at ha
            exact Or.inl ⟨attempt, ha⟩

/-- C5 (amended): `create_retry_decorator` provides no `RetryBudget`
integration at all — every action a retry-decorated call performs is an
operation invocation or a sleep, never `record_request`, `record_retry` or
`can_retry` (`RetryBudget` is a standalone, uncalled utility), so on
exhaustion the last failure propagates by tenacity's `reraise` path with no
budget consultation. -/
theorem retry_decorator_makes_no_budget_calls
    (cfg : RetryConfig) (op : Nat → Outcome) (js : Nat → ℚ) (a : RetryAction)
    (ha : a ∈ (executeWithRetry cfg op js).1) :
    (∃ k, a = .invoke k) ∨ (∃ d, a = .sleepFor d) :=
  mem_runRetryFrom_invoke_or_sleep cfg op js (cfg.max_attempts - 1) 1 a ha

/-- Witness for C5 (amended): the first action of a concrete decorated call
is an invocation and is covered by the amended statement. -/
theorem retry_decorator_makes_no_budget_calls_witness :
    RetryAction.invoke 1
        ∈ (executeWithRetry retryConfigDefault (fun _ => .fail 5) (fun _ => 0)).1 ∧
    ((∃ k, RetryAction.invoke 1 = RetryAction.invoke k) ∨
      (∃ d, RetryAction.invoke 1 = RetryAction.sleepFor d)) :=
  ⟨by decide,
   retry_decorator_makes_no_budget_calls retryConfigDefault
     (fun _ => .fail 5) (fun _ => 0) (.invoke 1) (by decide)⟩

end Resilience

namespace Resilience

/-! ## RetryBudget theorems -/

/-- Concrete budget state at the budget boundary: 10 requests and 2 retries
in the window, `budget_percent = 20`, floor 0 — the retry percentage is
exactly 20%. -/
def budgetEx : RetryBudget :=
  { budget_percent := 20, window_seconds := 10, min_retries_per_second := 0,
    requests := [1, 2, 3, 4, 5, 6, 7, 8, 9, 10], retries := [5, 6] }

/-- Counterexample to C7 as stated: at `budgetEx` (retry rate at/above the
floor), the retries (2) do **not** exceed `maxRetryPercent` of the requests
(20% of 10 = 2), yet `can_retry()` returns `false` — the code denies at
`retry_percent >= budget_percent`, not only when retries strictly exceed the
budget. -/
theorem can_retry_boundary_counterexample :
    ¬ (((budgetCleanup budgetEx 10).retries.length : ℚ) / budgetEx.window_seconds
        < budgetEx.min_retries_per_second) ∧
    ¬ (budgetEx.budget_percent / 100 * ((budgetCleanup budgetEx 10).requests.length : ℚ)
        < ((budgetCleanup budgetEx 10).retries.length : ℚ)) ∧
    canRetry budgetEx 10 = false := by
  have hclean : budgetCleanup budgetEx 10 = budgetEx := by
    norm_num [budgetCleanup, budgetEx, List.filter]
  refine ⟨?_, ?_, ?_⟩
  · rw [hclean]
    norm_num [budgetEx]
  · rw [hclean]
    norm_num [budgetEx]
  · rw [canRetry, hclean]
    norm_num [budgetEx]

/-- C7 (amended): `can_retry()` returns true whenever the windowed retry
rate is below `min_retries_per_second`, regardless of the percentage; at or
above the floor (and with a non-empty pruned request log) it returns false
exactly when the retry percentage is **at least** `budget_percent` (the
claim's strict "exceeds" is off by the boundary case; an empty request log
also always allows). -/
theorem can_retry_floor_and_budget (b : RetryBudget) (now : ℚ) :
    (((budgetCleanup b now).retries.length : ℚ) / b.window_seconds
        < b.min_retries_per_second → canRetry b now = true) ∧
    (¬ (((budgetCleanup b now).retries.length : ℚ) / b.window_seconds
        < b.min_retries_per_second) →
      (budgetCleanup b now).requests ≠ [] →
      (canRetry b now = false ↔
        b.budget_percent ≤ ((budgetCleanup b now).retries.length : ℚ)
            / ((budgetCleanup b now).requests.length : ℚ) * 100)) := by
  constructor
  · intro h
    simp [canRetry, h]
  · intro h hne
    have hempty : (budgetCleanup b now).requests.isEmpty = false := by
      rw [List.isEmpty_eq_false]
      exact hne
    simp [canRetry, h, hempty, not_lt]

/-- Budget state above the boundary (3 of 10 requests are retries, 30% of a
20% budget), used as a witness input. -/
def budgetEx2 : RetryBudget :=
  { budget_percent := 20, window_seconds := 10, min_retries_per_second := 0,
    requests := [1, 2, 3, 4, 5, 6, 7, 8, 9, 10], retries := [4, 5, 6] }

/-- Witness for C7 (amended): at `budgetEx2` the rate is at/above the floor,
the percentage (30%) is at least the budget (20%), and `can_retry()` denies. -/
theorem can_retry_floor_and_budget_witness : canRetry budgetEx2 10 = false := by
  have hclean : budgetCleanup budgetEx2 10 = budgetEx2 := by
    norm_num [budgetCleanup, budgetEx2, List.filter]
  refine ((can_retry_floor_and_budget budgetEx2 10).2 ?_ ?_).mpr ?_
  · rw [hclean]
    norm_num [budgetEx2]
  · rw [hclean]
    simp [budgetEx2]
  · rw [hclean]
    norm_num [budgetEx2]

end Resilience

namespace Resilience

/-! ## AdaptiveTimeout lemmas -/

lemma updateTimeout_latencies (a : AdaptiveTimeout) :
    (updateTimeout a).latencies = a.latencies := by
  unfold updateTimeout
  split <;> rfl

lemma updateTimeout_min_max (a : AdaptiveTimeout) :
    (updateTimeout a).min_timeout = a.min_timeout ∧
    (updateTimeout a).max_timeout = a.max_timeout := by
  unfold updateTimeout
  split <;> exact ⟨rfl, rfl⟩

lemma updateTimeout_small (a : AdaptiveTimeout) (h : a.latencies.length < 10) :
    updateTimeout a = a := by
  unfold updateTimeout
  rw [if_pos h]

lemma updateTimeout_current_bounds (a : AdaptiveTimeout)
    (hmm : a.min_timeout ≤ a.max_timeout)
    (h1 : a.min_timeout ≤ a.currentTimeout) (h2 : a.currentTimeout ≤ a.max_timeout) :
    a.min_timeout ≤ (updateTimeout a).currentTimeout ∧
    (updateTimeout a).currentTimeout ≤ a.max_timeout := by
  unfold updateTimeout
  split
  · exact ⟨h1, h2⟩
  · exact ⟨le_max_left _ _, max_le hmm (min_le_left _ _)⟩

lemma recordTimeout_inv (a : AdaptiveTimeout)
    (h0 : 0 ≤ a.min_timeout) (hmm : a.min_timeout ≤ a.max_timeout)
    (h1 : a.min_timeout ≤ a.currentTimeout) (_h2 : a.currentTimeout ≤ a.max_timeout) :
    (recordTimeout a).min_timeout = a.min_timeout ∧
    (recordTimeout a).max_timeout = a.max_timeout ∧
    a.min_timeout ≤ (recordTimeout a).currentTimeout ∧
    (recordTimeout a).currentTimeout ≤ a.max_timeout := by
  refine ⟨rfl, rfl, ?_, min_le_left _ _⟩
  have hcur : 0 ≤ a.currentTimeout := h0.trans h1
  have : a.currentTimeout ≤ a.currentTimeout * (11 / 10) :=
    le_mul_of_one_le_right hcur (by norm_num)
  exact le_min hmm (h1.trans this)

lemma recordLatency_inv (a : AdaptiveTimeout) (l : ℚ)
    (hmm : a.min_timeout ≤ a.max_timeout)
    (h1 : a.min_timeout ≤ a.currentTimeout) (h2 : a.currentTimeout ≤ a.max_timeout) :
    (recordLatency a l).min_timeout = a.min_timeout ∧
    (recordLatency a l).max_timeout = a.max_timeout ∧
    a.min_timeout ≤ (recordLatency a l).currentTimeout ∧
    (recordLatency a l).currentTimeout ≤ a.max_timeout := by
  unfold recordLatency
  refine ⟨(updateTimeout_min_max _).1, (updateTimeout_min_max _).2, ?_⟩
  exact updateTimeout_current_bounds _ hmm h1 h2

lemma runOps_inv (ops : List ATOp) (a : AdaptiveTimeout)
    (h0 : 0 ≤ a.min_timeout) (hmm : a.min_timeout ≤ a.max_timeout)
    (h1 : a.min_timeout ≤ a.currentTimeout) (h2 : a.currentTimeout ≤ a.max_timeout) :
    (runOps a ops).min_timeout = a.min_timeout ∧
    (runOps a ops).max_timeout = a.max_timeout ∧
    a.min_timeout ≤ (runOps a ops).currentTimeout ∧
    (runOps a ops).currentTimeout ≤ a.max_timeout := by
  induction ops generalizing a with
  | nil => exact ⟨rfl, rfl, h1, h2⟩
  | cons o rest ih =>
      cases o with
      | lat l =>
          have hstep := recordLatency_inv a l hmm h1 h2
          have := ih (recordLatency a l) (hstep.1 ▸ h0) (hstep.1 ▸ hstep.2.1 ▸ hmm)
            (hstep.1 ▸ hstep.2.2.1) (hstep.2.1 ▸ hstep.2.2.2)
          exact ⟨hstep.1 ▸ this.1, hstep.2.1 ▸ this.2.1,
            hstep.1 ▸ this.2.2.1, hstep.2.1 ▸ this.2.2.2⟩
      | timeout =>
          have hstep := recordTimeout_inv a h0 hmm h1 h2
          have := ih (recordTimeout a) (hstep.1 ▸ h0) (hstep.1 ▸ hstep.2.1 ▸ hmm)
            (hstep.1 ▸ hstep.2.2.1) (hstep.2.1 ▸ hstep.2.2.2)
          exact ⟨hstep.1 ▸ this.1, hstep.2.1 ▸ this.2.1,
            hstep.1 ▸ this.2.2.1, hstep.2.1 ▸ this.2.2.2⟩

end Resilience

namespace Resilience

/-- Counterexample to C8 as stated: `AdaptiveTimeout.__init__` performs no
clamping, so constructing with `initial_timeout = 1/2` below
`min_timeout = 1` yields a reachable state (the empty call sequence) whose
current timeout lies outside `[min_timeout, max_timeout]`. -/
theorem adaptive_timeout_init_unclamped_counterexample :
    (initAdaptive (1 / 2) 1 120 99 (3 / 2) 100).currentTimeout
      < (initAdaptive (1 / 2) 1 120 99 (3 / 2) 100).min_timeout := by
  norm_num [initAdaptive]

/-- C8 (amended): provided `0 ≤ min_timeout ≤ max_timeout` and the current
timeout already lies within `[min_timeout, max_timeout]` (which holds for a
construction whose `initial_timeout` is in range, e.g. the defaults
`30 ∈ [1, 120]`, but not for an out-of-range `initial_timeout` — the
constructor does not clamp), every state reachable by `record_latency` /
`record_timeout` calls keeps the timeout within `[min_timeout, max_timeout]`;
and the timeout is recomputed from latency samples only once at least 10
samples exist — `record_latency` leaves it unchanged while the window holds
fewer than 10. -/
theorem adaptive_timeout_bounds_invariant :
    (∀ (a : AdaptiveTimeout) (ops : List ATOp),
      0 ≤ a.min_timeout → a.min_timeout ≤ a.max_timeout →
      a.min_timeout ≤ a.currentTimeout → a.currentTimeout ≤ a.max_timeout →
      a.min_timeout ≤ (runOps a ops).currentTimeout ∧
        (runOps a ops).currentTimeout ≤ a.max_timeout) ∧
    (∀ (a : AdaptiveTimeout) (l : ℚ),
      (recordLatency a l).latencies.length < 10 →
      (recordLatency a l).currentTimeout = a.currentTimeout) := by
  constructor
  · intro a ops h0 hmm h1 h2
    exact ⟨(runOps_inv ops a h0 hmm h1 h2).2.2.1, (runOps_inv ops a h0 hmm h1 h2).2.2.2⟩
  · intro a l h
    simp only [recordLatency] at h ⊢
    rw [updateTimeout_latencies] at h
    rw [updateTimeout_small _ h]

/-- AdaptiveTimeout in a default-like in-range state with nine samples,
used as a witness input. -/
def adaptiveEx : AdaptiveTimeout :=
  { min_timeout := 1, max_timeout := 120, percentile := 50, buffer_multiplier := 2,
    window_size := 100, latencies := [1, 2, 3, 4, 5, 6, 7, 8, 9],
    currentTimeout := 30 }

/-- AdaptiveTimeout with two samples, used as a witness input for the
fewer-than-10-samples part. -/
def adaptiveSmallEx : AdaptiveTimeout :=
  { min_timeout := 1, max_timeout := 120, percentile := 99, buffer_multiplier := 3 / 2,
    window_size := 100, latencies := [2, 4], currentTimeout := 30 }

/-- Witness for C8 (amended): from `adaptiveEx` (in-range), a timeout bump
followed by a latency sample keeps the timeout within `[1, 120]`; and a
latency recorded into a 2-sample window leaves the timeout at 30. -/
theorem adaptive_timeout_bounds_invariant_witness :
    ((1 : ℚ) ≤ (runOps adaptiveEx [.timeout, .lat 5]).currentTimeout ∧
      (runOps adaptiveEx [.timeout, .lat 5]).currentTimeout ≤ 120) ∧
    (recordLatency adaptiveSmallEx 6).currentTimeout = 30 := by
  constructor
  · exact adaptive_timeout_bounds_invariant.1 adaptiveEx [.timeout, .lat 5]
      (by norm_num [adaptiveEx]) (by norm_num [adaptiveEx])
      (by norm_num [adaptiveEx]) (by norm_num [adaptiveEx])
  · have h : (recordLatency adaptiveSmallEx 6).latencies.length < 10 := by
      simp only [recordLatency, updateTimeout_latencies]
      norm_num [adaptiveSmallEx]
    exact adaptive_timeout_bounds_invariant.2 adaptiveSmallEx 6 h

end Resilience

namespace Resilience

lemma insertSorted_length (x : ℚ) (L : List ℚ) :
    (insertSorted x L).length = L.length + 1 := by
  induction L with
  | nil => rfl
  | cons y ys ih =>
      unfold insertSorted
      split
      · simp
      · simp [ih]

lemma sortLats_length (L : List ℚ) : (sortLats L).length = L.length := by
  induction L with
  | nil => rfl
  | cons x xs ih => simp [sortLats, insertSorted_length, ih]

lemma recordLatency_length_le (a : AdaptiveTimeout) (l : ℚ) :
    (recordLatency a l).latencies.length ≤ a.latencies.length + 1 := by
  simp only [recordLatency, updateTimeout_latencies]
  split
  · split
    · simp
    · simp
  · simp

lemma runLats_small (ls : List ℚ) (a : AdaptiveTimeout)
    (h : a.latencies.length + ls.length < 10) :
    (runLats a ls).currentTimeout = a.currentTimeout := by
  induction ls generalizing a with
  | nil => rfl
  | cons l rest ih =>
      have hlen : (recordLatency a l).latencies.length ≤ a.latencies.length + 1 :=
        recordLatency_length_le a l
      have hsmall : (recordLatency a l).latencies.length < 10 := by
        simp only [List.length_cons] at h
        omega
      have hcur : (recordLatency a l).currentTimeout = a.currentTimeout := by
        simp only [recordLatency, updateTimeout_latencies] at hsmall ⊢
        rw [updateTimeout_small _ hsmall]
      have : runLats a (l :: rest) = runLats (recordLatency a l) rest := rfl
      rw [this, ih (recordLatency a l) (by simp only [List.length_cons] at h; omega), hcur]

lemma updateTimeout_formula (x : AdaptiveTimeout) (hp : 0 ≤ x.percentile)
    (h : 10 ≤ x.latencies.length) :
    (updateTimeout x).currentTimeout
      = max x.min_timeout (min x.max_timeout
          ((sortLats x.latencies).getD
            (min (⌊(x.latencies.length : ℚ) * x.percentile / 100⌋.toNat)
              (x.latencies.length - 1)) 0 * x.buffer_multiplier)) := by
  have hv : 0 ≤ (x.latencies.length : ℚ) * x.percentile / 100 := by positivity
  have hfloor : (0 : ℤ) ≤ ⌊(x.latencies.length : ℚ) * x.percentile / 100⌋ :=
    Int.floor_nonneg.mpr hv
  have hidx : (min ⌊(x.latencies.length : ℚ) * x.percentile / 100⌋
        ((x.latencies.length : ℤ) - 1)).toNat
      = min (⌊(x.latencies.length : ℚ) * x.percentile / 100⌋.toNat)
          (x.latencies.length - 1) := by
    omega
  unfold updateTimeout
  rw [if_neg (by omega)]
  simp only [pyInt, if_pos hv, sortLats_length, hidx]

/-- C9: with fewer than 10 recorded latency samples a fresh
`AdaptiveTimeout` never changes its initial timeout under `record_latency`;
and once a `record_latency` leaves at least 10 samples in the window, the
current timeout equals
`clamp(min_timeout, max_timeout, p * buffer_multiplier)` where `p` is the
sorted window's element at index
`min(floor(len * percentile / 100), len - 1)`. -/
theorem adaptive_timeout_percentile_recompute :
    (∀ (initial mn mx perc buf : ℚ) (w : Nat) (ls : List ℚ), ls.length < 10 →
      (runLats (initAdaptive initial mn mx perc buf w) ls).currentTimeout = initial) ∧
    (∀ (a : AdaptiveTimeout) (l : ℚ), 0 ≤ a.percentile →
      10 ≤ (recordLatency a l).latencies.length →
      (recordLatency a l).currentTimeout
        = max a.min_timeout (min a.max_timeout
            ((sortLats (recordLatency a l).latencies).getD
              (min (⌊((recordLatency a l).latencies.length : ℚ)
                      * a.percentile / 100⌋.toNat)
                ((recordLatency a l).latencies.length - 1)) 0
              * a.buffer_multiplier))) := by
  constructor
  · intro initial mn mx perc buf w ls h
    exact runLats_small ls _ (by simpa [initAdaptive] using h)
  · intro a l hp h
    simp only [recordLatency, updateTimeout_latencies] at h ⊢
    exact updateTimeout_formula _ hp h

/-- Witness for C9: recording a tenth sample into `adaptiveEx`
(percentile 50, buffer 2) sets the timeout to
`clamp(1, 120, sorted[min(floor(10*50/100), 9)] * 2) = sorted[5] * 2 = 12`,
and three samples into a fresh instance leave the initial 30 unchanged. -/
theorem adaptive_timeout_percentile_recompute_witness :
    (recordLatency adaptiveEx 10).currentTimeout = 12 ∧
    (runLats (initAdaptive 30 1 120 99 (3 / 2) 100) [1, 2, 3]).currentTimeout = 30 := by
  constructor
  · have hlat : (recordLatency adaptiveEx 10).latencies
        = [1, 2, 3, 4, 5, 6, 7, 8, 9, 10] := by
      simp only [recordLatency, updateTimeout_latencies]
      norm_num [adaptiveEx]
    have h := adaptive_timeout_percentile_recompute.2 adaptiveEx 10
      (by norm_num [adaptiveEx]) (by rw [hlat]; norm_num)
    rw [h, hlat]
    norm_num [adaptiveEx, sortLats, insertSorted, List.getD, Int.toNat]
  · exact adaptive_timeout_percentile_recompute.1 30 1 120 99 (3 / 2) 100 [1, 2, 3]
      (by norm_num)

end Resilience

namespace Resilience

/-- C10: an unrecognized `config_name` silently falls back to the default
preset: `create_retry_decorator` (with no explicit config) resolves it to
`RETRY_CONFIGS["default"]`, and `with_timeout` (with no explicit seconds)
resolves it to `TIMEOUT_CONFIGS["default"].default_timeout = 30.0`; both
resolutions are total functions, so no error is raised. -/
theorem unknown_preset_falls_back_to_default (name : String)
    (hr : name ∉ [("default"), ("aggressive"), ("conservative"), ("database"),
      ("http"), ("idempotent")])
    (ht : name ∉ [("default"), ("fast"), ("slow"), ("database"), ("external_api")]) :
    resolveRetryConfig none (some name) = retryConfigDefault ∧
    withTimeoutSeconds none (some name) = 30 := by
  simp only [List.mem_cons, List.not_mem_nil, or_false] at hr ht
  push_neg at hr ht
  obtain ⟨h1, h2, h3, h4, h5, h6⟩ := hr
  obtain ⟨t1, t2, t3, t4, t5⟩ := ht
  by_cases he : name = ("")
  · subst he
    exact ⟨rfl, rfl⟩
  · constructor
    · simp [resolveRetryConfig, orDefaultName, RETRY_CONFIGS_get, he,
        h1, h2, h3, h4, h5, h6]
    · simp [withTimeoutSeconds, TIMEOUT_CONFIGS_get, timeoutConfigDefault, he,
        t1, t2, t3, t4, t5]

/-- Witness for C10: the unknown name `bogus` resolves to the default retry
preset and the default 30-second timeout. -/
theorem unknown_preset_falls_back_to_default_witness :
    resolveRetryConfig none (some ("bogus")) = retryConfigDefault ∧
    withTimeoutSeconds none (some ("bogus")) = 30 :=
  unknown_preset_falls_back_to_default ("bogus") (by decide) (by decide)

end Resilience
